import Mathlib

/-!
Verification of the MRD protocol engine (`connection.py`, `constants.py`).

Shallow embedding conventions:
- Python `bytes` values and UTF-8 encoded strings are modelled as `List Nat`
  (each element a byte value `< 256`); a Python `str` is identified with its
  UTF-8 byte encoding, so the null-stripping `s.split('\x00', 1)[0]` becomes
  "take bytes up to the first 0".
- `socket.recv(n, MSG_WAITALL)` returns exactly `n` bytes or, at end of
  stream, whatever remains (possibly empty); the incoming stream is a
  `List Nat` of not-yet-consumed bytes and a read is `take`/`drop`.
- Places where Python `struct.unpack` / `uuid.UUID(bytes=...)` would raise on
  a short buffer are modelled by `Option`/a `malformed` result.
- The domain-record messages (Acquisition 1008, Image 1022, Waveform 1026)
  are decoded by the external ismrmrd collaborator; their payload layout is
  out of scope, so their handlers are represented by an opaque `external`
  frame result that no claim exercises.
-/

/-- Byte strings: each element is a byte value. -/
abbrev Bytes := List Nat

/-- Little-endian packing of `n` into `k` bytes, as done by
`struct.Struct('<H') / ('<I') / ('<Q')` (value reduced mod 2^(8k); the
theorems that use it carry the range hypotheses under which Python's
`struct.pack` does not raise). -/
def packLE : Nat → Nat → Bytes
  | 0, _ => []
  | k + 1, n => n % 256 :: packLE k (n / 256)

/-- Little-endian unpacking, as done by `struct.unpack` on an exact-size
buffer. -/
def unpackLE (s : Bytes) : Nat :=
  s.foldr (fun b acc => b + 256 * acc) 0

/-- Model of `self.read(n)` where the amount actually received is checked by
the subsequent `struct.unpack`/`uuid.UUID`, which raises on a short buffer:
returns the bytes and the rest of the stream, or `none` if fewer than `n`
bytes remain. -/
def readExact (n : Nat) (s : Bytes) : Option (Bytes × Bytes) :=
  if n ≤ s.length then some (s.take n, s.drop n) else none

/-- Model of `self.read(n)` for variable-length text/data payloads, where
Python performs no size check and simply works with whatever `recv`
returned. -/
def takeN (n : Nat) (s : Bytes) : Bytes × Bytes :=
  (s.take n, s.drop n)

/-- Model of `text.decode("utf-8").split('\x00', 1)[0]` at the byte level:
keep bytes up to (excluding) the first 0. -/
def stripNul (b : Bytes) : Bytes :=
  b.takeWhile (fun x => x != 0)

/-- Model of `constants.MrdMessageConfigurationFile.pack` with format
`'<1024s'`: Python's `struct.pack` truncates a longer byte string or pads a
shorter one with null bytes to exactly 1024 bytes (it does not raise). -/
def pack1024s (b : Bytes) : Bytes :=
  b.take 1024 ++ List.replicate (1024 - b.length) 0

/-- Model of `read_mrd_message_length` (`constants.MrdMessageLength`,
4-byte little-endian uint32). -/
def read_mrd_message_length (s : Bytes) : Option (Nat × Bytes) :=
  match readExact 4 s with
  | none => none
  | some (b, rest) => some (unpackLE b, rest)

/-- The fully decoded protocol messages handled by `Connection.handlers`
(excluding the external domain records).  String fields hold the UTF-8 byte
encoding. -/
inductive Msg where
  | configFile (filename : Bytes)
  | configText (text : Bytes)
  | metadata (text : Bytes)
  | text (t : Bytes)
  | feedback (name : Bytes) (data : Bytes)
  | storeDataQuery (uid : Bytes) (name : Bytes) (data : Bytes)
  | storeDataResponse (uid : Bytes) (status : Nat)
  | retrieveDataQuery (uid : Bytes) (name : Bytes)
  | retrieveDataResponse (uid : Bytes) (status : Nat) (name : Bytes) (data : Bytes)
deriving DecidableEq, Repr

/-- Length-prefixed null-terminated text field, as emitted by the senders:
`contents_with_nul = '%s\0' % contents` followed by
`MrdMessageLength.pack(len(contents_with_nul.encode()))` and the bytes. -/
def lenPrefixNul (s : Bytes) : Bytes :=
  packLE 4 (s.length + 1) ++ s ++ [0]

/-- Wire encoding of each message, exactly the byte sequence written by the
corresponding `Connection.send_*` function (identifier then payload). -/
def encodeMsg : Msg → Bytes
  | .configFile f => packLE 2 1 ++ pack1024s f
  | .configText s => packLE 2 2 ++ lenPrefixNul s
  | .metadata s => packLE 2 3 ++ lenPrefixNul s
  | .text s => packLE 2 5 ++ lenPrefixNul s
  | .feedback n d => packLE 2 1028 ++ lenPrefixNul n ++ packLE 4 d.length ++ d
  | .storeDataQuery uid n d =>
      packLE 2 1030 ++ uid ++ lenPrefixNul n ++ packLE 4 d.length ++ d
  | .storeDataResponse uid st => packLE 2 1031 ++ uid ++ packLE 4 st
  | .retrieveDataQuery uid n => packLE 2 1032 ++ uid ++ lenPrefixNul n
  | .retrieveDataResponse uid st n d =>
      packLE 2 1033 ++ uid ++ packLE 4 st ++ lenPrefixNul n ++ packLE 4 d.length ++ d

/-- Encoding of the Close frame (identifier only, no payload). -/
def encodeClose : Bytes := packLE 2 4

/-- Concatenated encoding of a sequence of frames. -/
def encodeAll (ms : List Msg) : Bytes :=
  (ms.map encodeMsg).flatten

/-- Result of reading and dispatching one frame from the stream, mirroring
`read_mrd_message_identifier` plus one `handlers` lookup and handler call. -/
inductive FrameResult where
  /-- The identifier read returned zero bytes: clean EOF, sets `is_exhausted`. -/
  | eof
  /-- A `struct.unpack`/`uuid.UUID` call inside a handler raised on a short
  buffer (any short read other than clean EOF). -/
  | malformed
  /-- No handler registered for this identifier: the default lambda calls
  `unknown_message_identifier`, which raises `StopIteration`; only the 2
  identifier bytes were consumed. -/
  | unknown (id : Nat) (rest : Bytes)
  /-- Identifier of a domain record (1008/1022/1026) whose payload decoding
  is supplied by the external ismrmrd collaborator and is not modelled. -/
  | external (id : Nat) (rest : Bytes)
  /-- A Close frame was decoded: `read_close` sets `is_exhausted` and
  returns `None`. -/
  | close (rest : Bytes)
  /-- A handler decoded message `m`, leaving `rest` of the stream. -/
  | ok (m : Msg) (rest : Bytes)
deriving DecidableEq, Repr

/-- Handler `read_config_file`: reads 1024 bytes
(`MrdMessageConfigurationFile.unpack`) and strips at the first null. -/
def read_config_file (t : Bytes) : FrameResult :=
  match readExact 1024 t with
  | none => .malformed
  | some (b, rest) => .ok (.configFile (stripNul b)) rest

/-- Handler `read_config_text`: 4-byte length, then that many bytes, null
stripped. -/
def read_config_text (t : Bytes) : FrameResult :=
  match read_mrd_message_length t with
  | none => .malformed
  | some (n, t1) =>
    let (b, rest) := takeN n t1
    .ok (.configText (stripNul b)) rest

/-- Handler `read_metadata`: same layout as config text. -/
def read_metadata (t : Bytes) : FrameResult :=
  match read_mrd_message_length t with
  | none => .malformed
  | some (n, t1) =>
    let (b, rest) := takeN n t1
    .ok (.metadata (stripNul b)) rest

/-- Handler `read_close`: no payload; sets `is_exhausted = True` and returns
`None`. -/
def read_close (t : Bytes) : FrameResult := .close t

/-- Handler `read_text`: 4-byte length, then that many bytes, null
stripped. -/
def read_text (t : Bytes) : FrameResult :=
  match read_mrd_message_length t with
  | none => .malformed
  | some (n, t1) =>
    let (b, rest) := takeN n t1
    .ok (.text (stripNul b)) rest

/-- Handler `read_feedback`: length-prefixed name (null stripped) then
length-prefixed raw data; returns the `(name, data)` tuple.  (The diagnostic
`ctypes.memmove` interpretation of the data is logging only.) -/
def read_feedback (t : Bytes) : FrameResult :=
  match read_mrd_message_length t with
  | none => .malformed
  | some (nl, t1) =>
    let (nb, t2) := takeN nl t1
    match read_mrd_message_length t2 with
    | none => .malformed
    | some (dl, t3) =>
      let (db, rest) := takeN dl t3
      .ok (.feedback (stripNul nb) db) rest

/-- Handler `read_store_data_query`: 16-byte uid, length-prefixed name (null
stripped), length-prefixed data. -/
def read_store_data_query (t : Bytes) : FrameResult :=
  match readExact 16 t with
  | none => .malformed
  | some (uid, t1) =>
    match read_mrd_message_length t1 with
    | none => .malformed
    | some (nl, t2) =>
      let (nb, t3) := takeN nl t2
      match read_mrd_message_length t3 with
      | none => .malformed
      | some (dl, t4) =>
        let (db, rest) := takeN dl t4
        .ok (.storeDataQuery uid (stripNul nb) db) rest

/-- Handler `read_store_data_response`: 16-byte uid, 4-byte status. -/
def read_store_data_response (t : Bytes) : FrameResult :=
  match readExact 16 t with
  | none => .malformed
  | some (uid, t1) =>
    match readExact 4 t1 with
    | none => .malformed
    | some (sb, rest) => .ok (.storeDataResponse uid (unpackLE sb)) rest

/-- Handler `read_retrieve_data_query`: 16-byte uid, length-prefixed name. -/
def read_retrieve_data_query (t : Bytes) : FrameResult :=
  match readExact 16 t with
  | none => .malformed
  | some (uid, t1) =>
    match read_mrd_message_length t1 with
    | none => .malformed
    | some (nl, t2) =>
      let (nb, rest) := takeN nl t2
      .ok (.retrieveDataQuery uid (stripNul nb)) rest

/-- Handler `read_retrieve_data_response`: 16-byte uid, 4-byte status,
length-prefixed name, length-prefixed data. -/
def read_retrieve_data_response (t : Bytes) : FrameResult :=
  match readExact 16 t with
  | none => .malformed
  | some (uid, t1) =>
    match readExact 4 t1 with
    | none => .malformed
    | some (sb, t2) =>
      match read_mrd_message_length t2 with
      | none => .malformed
      | some (nl, t3) =>
        let (nb, t4) := takeN nl t3
        match read_mrd_message_length t4 with
        | none => .malformed
        | some (dl, t5) =>
          let (db, rest) := takeN dl t5
          .ok (.retrieveDataResponse uid (unpackLE sb) (stripNul nb) db) rest

/-- The `Connection.handlers` dispatch table: applies the handler registered
for `id` to the rest of the stream, or reports an unknown identifier. -/
def dispatchHandler (id : Nat) (t : Bytes) : FrameResult :=
  if id = 1 then read_config_file t
  else if id = 2 then read_config_text t
  else if id = 3 then read_metadata t
  else if id = 4 then read_close t
  else if id = 5 then read_text t
  else if id = 1008 then .external id t
  else if id = 1026 then .external id t
  else if id = 1022 then .external id t
  else if id = 1028 then read_feedback t
  else if id = 1030 then read_store_data_query t
  else if id = 1031 then read_store_data_response t
  else if id = 1032 then read_retrieve_data_query t
  else if id = 1033 then read_retrieve_data_response t
  else .unknown id t

/-- Identifiers that appear as keys of `Connection.handlers`. -/
def hasHandler (id : Nat) : Bool :=
  id = 1 || id = 2 || id = 3 || id = 4 || id = 5 || id = 1008 || id = 1026 ||
  id = 1022 || id = 1028 || id = 1030 || id = 1031 || id = 1032 || id = 1033

/-- Read one frame: `read_mrd_message_identifier` (zero bytes means clean
EOF and `is_exhausted = True`; one byte makes the 2-byte `unpack` raise),
then the handler dispatch. -/
def readFrame : Bytes → FrameResult
  | [] => .eof
  | [_] => .malformed
  | a :: b :: t => dispatchHandler (a + 256 * b) t

/-- Exceptions a `Connection` receive/convenience call can raise. -/
inductive Err where
  /-- `unknown_message_identifier` raises `StopIteration`. -/
  | stopIteration
  /-- A short buffer made `struct.unpack`/`uuid.UUID` raise. -/
  | structError
  /-- `None` was dereferenced (`res.status` in `store_data` when
  `get_data_response` returned `None`). -/
  | attributeError
  /-- A domain-record frame reached the engine; its decoding belongs to the
  external collaborator and is not modelled. -/
  | unmodelled
deriving DecidableEq, Repr

/-- State of one `Connection`: the pending queue (whose entries are the
handler return values, so a decoded Close contributes `none`, as
`read_close` returns `None`), the unconsumed incoming bytes, the
`is_exhausted` flag, and the bytes written so far to the socket. -/
structure Conn where
  queue : List (Option Msg)
  stream : Bytes
  is_exhausted : Bool
  out : Bytes
deriving DecidableEq, Repr

/-- The `isinstance(item, (MrdStoreDataResponse, MrdRetrieveDataResponse))`
check used by `next` (false on `None`). -/
def isResp : Option Msg → Bool
  | some (.storeDataResponse _ _) => true
  | some (.retrieveDataResponse _ _ _ _) => true
  | _ => false

/-- Scan a list for the first element satisfying `p` and remove it,
mirroring `for i,item in enumerate(self.queue): ... return self.queue.pop(i)`. -/
def popFirst (p : Option Msg → Bool) : List (Option Msg) → Option (Option Msg × List (Option Msg))
  | [] => none
  | x :: xs =>
    if p x then some (x, xs)
    else
      match popFirst p xs with
      | some (y, ys) => some (y, x :: ys)
      | none => none

/-- The socket-reading loop of `Connection.next`: read a frame; a data
response is appended to the queue and the loop continues; anything else is
returned.  The loop is fuelled; each iteration consumes at least the 2
identifier bytes, so fuel `stream.length + 1` (used by `next`) never runs
out and the fuel-0 branch is unreachable. -/
def nextLoop (fuel : Nat) (c : Conn) : Except Err (Option Msg) × Conn :=
  match fuel with
  | 0 => (.ok none, c)
  | fuel + 1 =>
    match readFrame c.stream with
    | .eof => (.ok none, { c with is_exhausted := true })
    | .malformed => (.error .structError, c)
    | .unknown _ rest => (.error .stopIteration, { c with stream := rest })
    | .external _ rest => (.error .unmodelled, { c with stream := rest })
    | .close rest =>
      (.ok none, { c with stream := rest, is_exhausted := true })
    | .ok m rest =>
      if isResp (some m) then
        nextLoop fuel { c with stream := rest, queue := c.queue ++ [some m] }
      else
        (.ok (some m), { c with stream := rest })

/-- `Connection.next`: return the oldest queued entry that is not a data
response; otherwise read frames from the socket, queueing data responses,
until something else (possibly the `None` from a Close or EOF) arrives. -/
def next (c : Conn) : Except Err (Option Msg) × Conn :=
  match popFirst (fun i => !isResp i) c.queue with
  | some (item, q) => (.ok item, { c with queue := q })
  | none => nextLoop (c.stream.length + 1) c

/-- The response class passed as `responseType` to `get_data_response`. -/
inductive RespType where
  | store
  | retrieve
deriving DecidableEq, Repr

/-- The `isinstance(item, responseType) and item.uid == uid` test. -/
def matchesRU (rt : RespType) (uid : Bytes) : Option Msg → Bool
  | some (.storeDataResponse u _) => rt == .store && u == uid
  | some (.retrieveDataResponse u _ _ _) => rt == .retrieve && u == uid
  | _ => false

/-- The socket-reading loop of `get_data_response`
(`for i in range(maxPeekMessages)` with `maxPeekMessages = 10`): read and
decode a frame; on a `(responseType, uid)` match return it directly; on
mismatch (including the `None` a Close frame produces) append it to the
queue and continue; stop with `None` when the bound or the stream runs
out. -/
def gdrLoop (rt : RespType) (uid : Bytes) (fuel : Nat) (c : Conn) :
    Except Err (Option Msg) × Conn :=
  match fuel with
  | 0 => (.ok none, c)
  | fuel + 1 =>
    match readFrame c.stream with
    | .eof => (.ok none, { c with is_exhausted := true })
    | .malformed => (.error .structError, c)
    | .unknown _ rest => (.error .stopIteration, { c with stream := rest })
    | .external _ rest => (.error .unmodelled, { c with stream := rest })
    | .close rest =>
      gdrLoop rt uid fuel
        { c with stream := rest, is_exhausted := true, queue := c.queue ++ [none] }
    | .ok m rest =>
      if matchesRU rt uid (some m) then
        (.ok (some m), { c with stream := rest })
      else
        gdrLoop rt uid fuel { c with stream := rest, queue := c.queue ++ [some m] }

/-- `Connection.get_data_response(responseType, uid)`: scan the queue for
the first entry of the requested type with the requested uid and pop it;
otherwise look through at most 10 further messages on the socket. -/
def get_data_response (rt : RespType) (uid : Bytes) (c : Conn) :
    Except Err (Option Msg) × Conn :=
  match popFirst (matchesRU rt uid) c.queue with
  | some (item, q) => (.ok item, { c with queue := q })
  | none => gdrLoop rt uid 10 c

/-- The `while not (self.is_exhausted and (len(self.queue) == 0))` loop
condition of `Connection.__iter__`. -/
def iterActive (c : Conn) : Bool :=
  !(c.is_exhausted && c.queue.isEmpty)

/-- `Connection.__iter__`: while the connection is not exhausted with an
empty queue, yield `self.next()`.  An exception raised by `next` ends the
generator; the fuel bounds the number of yields inspected. -/
def iterate (c : Conn) : Nat → List (Except Err (Option Msg))
  | 0 => []
  | n + 1 =>
    if iterActive c then
      match next c with
      | (.error e, _) => [.error e]
      | (.ok r, c') => .ok r :: iterate c' n
    else []

/-- Repeatedly call `next`, collecting the results and the final state. -/
def drainC (c : Conn) : Nat → List (Except Err (Option Msg)) × Conn
  | 0 => ([], c)
  | n + 1 =>
    match next c with
    | (r, c') =>
      let (rs, cEnd) := drainC c' n
      (r :: rs, cEnd)

/-- The data-storage query/response records of `constants.py`. -/
structure MrdStoreDataQuery where
  uid : Bytes
  name : Bytes
  data : Bytes
deriving DecidableEq, Repr

structure MrdRetrieveDataQuery where
  uid : Bytes
  name : Bytes
deriving DecidableEq, Repr

/-- Models the single `uuid.uuid4()` that Python evaluates once, when the
`class MrdStoreDataQuery` body is executed (the default value of the `uid`
parameter of its `__init__`, `constants.py` line 73).  Its concrete value is
a random draw fixed at import time; only the fact that every
default-constructed query reuses this same value matters. -/
def storeQueryDefaultUid : Bytes := List.replicate 16 7

/-- Models the corresponding once-evaluated default for
`MrdRetrieveDataQuery.__init__` (`constants.py` line 90). -/
def retrieveQueryDefaultUid : Bytes := List.replicate 16 9

/-- `MrdStoreDataQuery(name, data)` / `MrdStoreDataQuery(name, data, uid)`:
when the `uid` argument is omitted Python substitutes the default object
created once at class-definition time, not a fresh `uuid4`. -/
def mkMrdStoreDataQuery (name data : Bytes) (uid : Option Bytes) : MrdStoreDataQuery :=
  { uid := uid.getD storeQueryDefaultUid, name := name, data := data }

/-- `MrdRetrieveDataQuery(name)` / `MrdRetrieveDataQuery(name, uid)`, with
the same once-evaluated default `uid`. -/
def mkMrdRetrieveDataQuery (name : Bytes) (uid : Option Bytes) : MrdRetrieveDataQuery :=
  { uid := uid.getD retrieveQueryDefaultUid, name := name }

/-- `send_store_data_query`: writes identifier, uid bytes, length-prefixed
null-terminated name, length-prefixed data. -/
def send_store_data_query (q : MrdStoreDataQuery) (c : Conn) : Conn :=
  { c with out := c.out ++ encodeMsg (.storeDataQuery q.uid q.name q.data) }

/-- `send_retrieve_data_query`: writes identifier, uid bytes,
length-prefixed null-terminated name. -/
def send_retrieve_data_query (q : MrdRetrieveDataQuery) (c : Conn) : Conn :=
  { c with out := c.out ++ encodeMsg (.retrieveDataQuery q.uid q.name) }

/-- `send_config_file(filename)`: writes the identifier and
`MrdMessageConfigurationFile.pack(filename.encode())` — `struct.pack`
truncates or null-pads to exactly 1024 bytes and never rejects. -/
def send_config_file (filename : Bytes) (c : Conn) : Conn :=
  { c with out := c.out ++ packLE 2 1 ++ pack1024s filename }

/-- The `item.status` attribute access: defined on the two response
classes, an `AttributeError` on anything else. -/
def statusAttr : Msg → Option Nat
  | .storeDataResponse _ st => some st
  | .retrieveDataResponse _ st _ _ => some st
  | _ => none

/-- `Connection.store_data(name, data)`: builds
`MrdStoreDataQuery(name, data, uuid.uuid4())` — the fresh random draw is the
explicit argument `u` — sends it, and returns `res.status` of the
correlated response.  When `get_data_response` returns `None`, `res.status`
raises `AttributeError`. -/
def store_data (u : Bytes) (name data : Bytes) (c : Conn) : Except Err Nat × Conn :=
  let q := mkMrdStoreDataQuery name data (some u)
  let c1 := send_store_data_query q c
  match get_data_response .store q.uid c1 with
  | (.error e, c2) => (.error e, c2)
  | (.ok none, c2) => (.error .attributeError, c2)
  | (.ok (some m), c2) =>
    match statusAttr m with
    | some st => (.ok st, c2)
    | none => (.error .attributeError, c2)

/-- `Connection.retrieve_data(name)`: builds
`MrdRetrieveDataQuery(name, uuid.uuid4())` — the fresh draw is the explicit
argument `u` — sends it, and returns the `get_data_response` result as-is
(`None` on a miss). -/
def retrieve_data (u : Bytes) (name : Bytes) (c : Conn) :
    Except Err (Option Msg) × Conn :=
  let q := mkMrdRetrieveDataQuery name (some u)
  let c1 := send_retrieve_data_query q c
  get_data_response .retrieve q.uid c1

deriving instance DecidableEq for Except

/-! Concrete scenario values used by the claims. -/

/-- UTF-8 bytes of the string used in the end-to-end example. -/
def cfgFast : Bytes := [114, 101, 99, 111, 110, 95, 109, 111, 100, 101, 61, 102, 97, 115, 116]

/-- UTF-8 bytes of the example text payload. -/
def helloBytes : Bytes := [104, 101, 108, 108, 111]

/-- Fresh connection whose peer sends ConfigText, Text, then Close. -/
def c2Init : Conn :=
  ⟨[], encodeMsg (.configText cfgFast) ++ (encodeMsg (.text helloBytes) ++ encodeClose), false, []⟩

/-- State after the ConfigText frame has been consumed. -/
def c2AfterCfg : Conn := ⟨[], encodeMsg (.text helloBytes) ++ encodeClose, false, []⟩

/-- State after the Text frame has been consumed. -/
def c2AfterText : Conn := ⟨[], encodeClose, false, []⟩

/-- State after the Close frame has been consumed. -/
def c2Final : Conn := ⟨[], [], true, []⟩

/-- Example 16-byte correlation ids. -/
def uidA : Bytes := List.replicate 16 1

def uidB : Bytes := List.replicate 16 2

def uidC : Bytes := List.replicate 16 3

/-- Connection whose peer sends a response for a foreign uid, a text
message, then the response for `uidA`. -/
def c7Init : Conn :=
  ⟨[], encodeAll [.storeDataResponse uidB 0, .text [120], .storeDataResponse uidA 0], false, []⟩

/-- An already-Exhausted connection whose stream still holds a Text frame. -/
def c3Init : Conn := ⟨[], encodeMsg (.text helloBytes), true, []⟩

/-! Codec lemmas. -/

theorem packLE_length (k n : Nat) : (packLE k n).length = k := by
  induction k generalizing n with
  | zero => rfl
  | succ k ih => simp [packLE, ih]

theorem unpackLE_cons (a : Nat) (l : Bytes) :
    unpackLE (a :: l) = a + 256 * unpackLE l := rfl

theorem unpackLE_packLE (k n : Nat) : unpackLE (packLE k n) = n % 2 ^ (8 * k) := by
  induction k generalizing n with
  | zero =>
    simp [packLE, unpackLE]
    omega
  | succ k ih =>
    have h8 : 8 * (k + 1) = 8 * k + 8 := by ring
    have hp : (2 : Nat) ^ (8 * (k + 1)) = 256 * 2 ^ (8 * k) := by
      rw [h8, pow_add]
      ring
    rw [packLE, unpackLE_cons, ih, hp, Nat.mod_mul]

theorem readExact_append {x : Bytes} (t : Bytes) {n : Nat} (h : x.length = n) :
    readExact n (x ++ t) = some (x, t) := by
  subst h
  simp [readExact, List.length_append, List.take_left, List.drop_left, Nat.le_add_right]

theorem takeN_append {x : Bytes} (t : Bytes) {n : Nat} (h : x.length = n) :
    takeN n (x ++ t) = (x, t) := by
  subst h
  simp [takeN, List.take_left, List.drop_left]

theorem read_len_append (n : Nat) (t : Bytes) (h : n < 2 ^ 32) :
    read_mrd_message_length (packLE 4 n ++ t) = some (n, t) := by
  simp only [read_mrd_message_length, readExact_append t (packLE_length 4 n), unpackLE_packLE]
  norm_num
  omega

theorem stripNul_append_zero_cons (b t : Bytes) (h : b.all (fun x => x != 0) = true) :
    stripNul (b ++ 0 :: t) = b := by
  induction b with
  | nil => simp [stripNul]
  | cons x xs ih =>
    rw [List.all_cons, Bool.and_eq_true] at h
    rw [List.cons_append, stripNul, List.takeWhile_cons, if_pos h.1]
    have hx := ih h.2
    rw [stripNul] at hx
    rw [hx]

theorem stripNul_append_nul (b : Bytes) (h : b.all (fun x => x != 0) = true) :
    stripNul (b ++ [0]) = b :=
  stripNul_append_zero_cons b [] h

theorem stripNul_eq_self (b : Bytes) (h : b.all (fun x => x != 0) = true) :
    stripNul b = b := by
  induction b with
  | nil => rfl
  | cons x xs ih =>
    rw [List.all_cons, Bool.and_eq_true] at h
    rw [stripNul, List.takeWhile_cons, if_pos h.1]
    have hx := ih h.2
    rw [stripNul] at hx
    rw [hx]

theorem pack1024s_length (b : Bytes) : (pack1024s b).length = 1024 := by
  simp [pack1024s, List.length_take]
  omega

theorem stripNul_pack1024s (b : Bytes) (h : b.all (fun x => x != 0) = true)
    (hlen : b.length ≤ 1024) : stripNul (pack1024s b) = b := by
  rw [pack1024s, List.take_of_length_le hlen]
  rcases Nat.lt_or_ge b.length 1024 with hl | hl
  · have hk : 1024 - b.length = (1024 - b.length - 1) + 1 := by omega
    rw [hk, List.replicate_succ]
    exact stripNul_append_zero_cons b _ h
  · have hk : 1024 - b.length = 0 := by omega
    rw [hk, List.replicate_zero, List.append_nil]
    exact stripNul_eq_self b h

theorem readFrame_pack2 (id : Nat) (t : Bytes) (h : id < 65536) :
    readFrame (packLE 2 id ++ t) = dispatchHandler id t := by
  have h2 : packLE 2 id = [id % 256, id / 256 % 256] := rfl
  rw [h2, List.cons_append, List.cons_append, readFrame]
  congr 1
  omega

/-- Well-formedness of a message for the send path: text fields are NUL-free
(so the null-strip on decode is the identity), the uid is the 16 bytes of a
`uuid.UUID`, and every `struct.pack` argument is in range so that the Python
sender does not raise. -/
def wfb : Msg → Bool
  | .configFile f => f.all (fun x => x != 0) && decide (f.length ≤ 1024)
  | .configText s => s.all (fun x => x != 0) && decide (s.length + 1 < 2 ^ 32)
  | .metadata s => s.all (fun x => x != 0) && decide (s.length + 1 < 2 ^ 32)
  | .text s => s.all (fun x => x != 0) && decide (s.length + 1 < 2 ^ 32)
  | .feedback n d =>
      n.all (fun x => x != 0) && decide (n.length + 1 < 2 ^ 32) &&
      decide (d.length < 2 ^ 32)
  | .storeDataQuery uid n d =>
      decide (uid.length = 16) && n.all (fun x => x != 0) &&
      decide (n.length + 1 < 2 ^ 32) && decide (d.length < 2 ^ 32)
  | .storeDataResponse uid st => decide (uid.length = 16) && decide (st < 2 ^ 32)
  | .retrieveDataQuery uid n =>
      decide (uid.length = 16) && n.all (fun x => x != 0) &&
      decide (n.length + 1 < 2 ^ 32)
  | .retrieveDataResponse uid st n d =>
      decide (uid.length = 16) && decide (st < 2 ^ 32) &&
      n.all (fun x => x != 0) && decide (n.length + 1 < 2 ^ 32) &&
      decide (d.length < 2 ^ 32)

theorem dispatchHandler_eq_1 (t : Bytes) : dispatchHandler 1 t = read_config_file t := by
  norm_num [dispatchHandler]

theorem dispatchHandler_eq_2 (t : Bytes) : dispatchHandler 2 t = read_config_text t := by
  norm_num [dispatchHandler]

theorem dispatchHandler_eq_3 (t : Bytes) : dispatchHandler 3 t = read_metadata t := by
  norm_num [dispatchHandler]

theorem dispatchHandler_eq_4 (t : Bytes) : dispatchHandler 4 t = read_close t := by
  norm_num [dispatchHandler]

theorem dispatchHandler_eq_5 (t : Bytes) : dispatchHandler 5 t = read_text t := by
  norm_num [dispatchHandler]

theorem dispatchHandler_eq_1028 (t : Bytes) : dispatchHandler 1028 t = read_feedback t := by
  norm_num [dispatchHandler]

theorem dispatchHandler_eq_1030 (t : Bytes) :
    dispatchHandler 1030 t = read_store_data_query t := by
  norm_num [dispatchHandler]

theorem dispatchHandler_eq_1031 (t : Bytes) :
    dispatchHandler 1031 t = read_store_data_response t := by
  norm_num [dispatchHandler]

theorem dispatchHandler_eq_1032 (t : Bytes) :
    dispatchHandler 1032 t = read_retrieve_data_query t := by
  norm_num [dispatchHandler]

theorem dispatchHandler_eq_1033 (t : Bytes) :
    dispatchHandler 1033 t = read_retrieve_data_response t := by
  norm_num [dispatchHandler]

theorem read_config_file_encode (f t : Bytes) (h1 : f.all (fun x => x != 0) = true)
    (h2 : f.length ≤ 1024) :
    read_config_file (pack1024s f ++ t) = .ok (.configFile f) t := by
  simp only [read_config_file, readExact_append t (pack1024s_length f),
    stripNul_pack1024s f h1 h2]

theorem read_config_text_encode (s t : Bytes) (h1 : s.all (fun x => x != 0) = true)
    (h2 : s.length + 1 < 2 ^ 32) :
    read_config_text (lenPrefixNul s ++ t) = .ok (.configText s) t := by
  have e1 : lenPrefixNul s ++ t = packLE 4 (s.length + 1) ++ ((s ++ [0]) ++ t) := by
    simp [lenPrefixNul]
  have e2 : (s ++ [0]).length = s.length + 1 := by simp
  rw [e1]
  simp only [read_config_text, read_len_append _ _ h2, takeN_append _ e2,
    stripNul_append_nul s h1]

theorem read_metadata_encode (s t : Bytes) (h1 : s.all (fun x => x != 0) = true)
    (h2 : s.length + 1 < 2 ^ 32) :
    read_metadata (lenPrefixNul s ++ t) = .ok (.metadata s) t := by
  have e1 : lenPrefixNul s ++ t = packLE 4 (s.length + 1) ++ ((s ++ [0]) ++ t) := by
    simp [lenPrefixNul]
  have e2 : (s ++ [0]).length = s.length + 1 := by simp
  rw [e1]
  simp only [read_metadata, read_len_append _ _ h2, takeN_append _ e2,
    stripNul_append_nul s h1]

theorem read_text_encode (s t : Bytes) (h1 : s.all (fun x => x != 0) = true)
    (h2 : s.length + 1 < 2 ^ 32) :
    read_text (lenPrefixNul s ++ t) = .ok (.text s) t := by
  have e1 : lenPrefixNul s ++ t = packLE 4 (s.length + 1) ++ ((s ++ [0]) ++ t) := by
    simp [lenPrefixNul]
  have e2 : (s ++ [0]).length = s.length + 1 := by simp
  rw [e1]
  simp only [read_text, read_len_append _ _ h2, takeN_append _ e2,
    stripNul_append_nul s h1]

theorem read_feedback_encode (n d t : Bytes) (h1 : n.all (fun x => x != 0) = true)
    (h2 : n.length + 1 < 2 ^ 32) (hd : d.length < 2 ^ 32) :
    read_feedback (lenPrefixNul n ++ (packLE 4 d.length ++ (d ++ t))) =
      .ok (.feedback n d) t := by
  have e1 : lenPrefixNul n ++ (packLE 4 d.length ++ (d ++ t)) =
      packLE 4 (n.length + 1) ++ ((n ++ [0]) ++ (packLE 4 d.length ++ (d ++ t))) := by
    simp [lenPrefixNul]
  have e2 : (n ++ [0]).length = n.length + 1 := by simp
  rw [e1]
  simp only [read_feedback, read_len_append _ _ h2, takeN_append _ e2,
    stripNul_append_nul n h1, read_len_append _ _ hd,
    takeN_append t (rfl : d.length = d.length)]

theorem read_store_data_query_encode (uid n d t : Bytes) (huid : uid.length = 16)
    (h1 : n.all (fun x => x != 0) = true) (h2 : n.length + 1 < 2 ^ 32)
    (hd : d.length < 2 ^ 32) :
    read_store_data_query (uid ++ (lenPrefixNul n ++ (packLE 4 d.length ++ (d ++ t)))) =
      .ok (.storeDataQuery uid n d) t := by
  have e1 : lenPrefixNul n ++ (packLE 4 d.length ++ (d ++ t)) =
      packLE 4 (n.length + 1) ++ ((n ++ [0]) ++ (packLE 4 d.length ++ (d ++ t))) := by
    simp [lenPrefixNul]
  have e2 : (n ++ [0]).length = n.length + 1 := by simp
  simp only [read_store_data_query, readExact_append _ huid, e1,
    read_len_append _ _ h2, takeN_append _ e2, stripNul_append_nul n h1,
    read_len_append _ _ hd, takeN_append t (rfl : d.length = d.length)]

theorem read_store_data_response_encode (uid t : Bytes) (st : Nat)
    (huid : uid.length = 16) (hst : st < 2 ^ 32) :
    read_store_data_response (uid ++ (packLE 4 st ++ t)) =
      .ok (.storeDataResponse uid st) t := by
  simp only [read_store_data_response, readExact_append _ huid,
    readExact_append t (packLE_length 4 st), unpackLE_packLE]
  norm_num
  omega

theorem read_retrieve_data_query_encode (uid n t : Bytes) (huid : uid.length = 16)
    (h1 : n.all (fun x => x != 0) = true) (h2 : n.length + 1 < 2 ^ 32) :
    read_retrieve_data_query (uid ++ (lenPrefixNul n ++ t)) =
      .ok (.retrieveDataQuery uid n) t := by
  have e1 : lenPrefixNul n ++ t = packLE 4 (n.length + 1) ++ ((n ++ [0]) ++ t) := by
    simp [lenPrefixNul]
  have e2 : (n ++ [0]).length = n.length + 1 := by simp
  simp only [read_retrieve_data_query, readExact_append _ huid, e1,
    read_len_append _ _ h2, takeN_append _ e2, stripNul_append_nul n h1]

theorem read_retrieve_data_response_encode (uid n d t : Bytes) (st : Nat)
    (huid : uid.length = 16) (hst : st < 2 ^ 32)
    (h1 : n.all (fun x => x != 0) = true) (h2 : n.length + 1 < 2 ^ 32)
    (hd : d.length < 2 ^ 32) :
    read_retrieve_data_response
        (uid ++ (packLE 4 st ++ (lenPrefixNul n ++ (packLE 4 d.length ++ (d ++ t))))) =
      .ok (.retrieveDataResponse uid st n d) t := by
  have e1 : lenPrefixNul n ++ (packLE 4 d.length ++ (d ++ t)) =
      packLE 4 (n.length + 1) ++ ((n ++ [0]) ++ (packLE 4 d.length ++ (d ++ t))) := by
    simp [lenPrefixNul]
  have e2 : (n ++ [0]).length = n.length + 1 := by simp
  have e3 : unpackLE (packLE 4 st) = st := by
    rw [unpackLE_packLE]
    norm_num
    omega
  simp only [read_retrieve_data_response, readExact_append _ huid,
    readExact_append _ (packLE_length 4 st), e1, e3,
    read_len_append _ _ h2, takeN_append _ e2, stripNul_append_nul n h1,
    read_len_append _ _ hd, takeN_append t (rfl : d.length = d.length)]

theorem encodeAll_nil : encodeAll [] = [] := rfl

theorem encodeAll_cons (m : Msg) (ms : List Msg) :
    encodeAll (m :: ms) = encodeMsg m ++ encodeAll ms := by
  simp [encodeAll]

theorem encodeAll_append (xs ys : List Msg) :
    encodeAll (xs ++ ys) = encodeAll xs ++ encodeAll ys := by
  simp [encodeAll]

/-- Reading a frame from the encoding of any well-formed message recovers
exactly that message and consumes exactly its bytes. -/
theorem readFrame_encodeMsg (m : Msg) (t : Bytes) (h : wfb m = true) :
    readFrame (encodeMsg m ++ t) = .ok m t := by
  cases m with
  | configFile f =>
    simp only [wfb, Bool.and_eq_true, decide_eq_true_eq] at h
    simp only [encodeMsg, List.append_assoc]
    rw [readFrame_pack2 1 _ (by norm_num), dispatchHandler_eq_1,
      read_config_file_encode f t h.1 h.2]
  | configText s =>
    simp only [wfb, Bool.and_eq_true, decide_eq_true_eq] at h
    simp only [encodeMsg, List.append_assoc]
    rw [readFrame_pack2 2 _ (by norm_num), dispatchHandler_eq_2,
      read_config_text_encode s t h.1 h.2]
  | metadata s =>
    simp only [wfb, Bool.and_eq_true, decide_eq_true_eq] at h
    simp only [encodeMsg, List.append_assoc]
    rw [readFrame_pack2 3 _ (by norm_num), dispatchHandler_eq_3,
      read_metadata_encode s t h.1 h.2]
  | text s =>
    simp only [wfb, Bool.and_eq_true, decide_eq_true_eq] at h
    simp only [encodeMsg, List.append_assoc]
    rw [readFrame_pack2 5 _ (by norm_num), dispatchHandler_eq_5,
      read_text_encode s t h.1 h.2]
  | feedback n d =>
    simp only [wfb, Bool.and_eq_true, decide_eq_true_eq] at h
    simp only [encodeMsg, List.append_assoc]
    rw [readFrame_pack2 1028 _ (by norm_num), dispatchHandler_eq_1028,
      read_feedback_encode n d t h.1.1 h.1.2 h.2]
  | storeDataQuery uid n d =>
    simp only [wfb, Bool.and_eq_true, decide_eq_true_eq] at h
    simp only [encodeMsg, List.append_assoc]
    rw [readFrame_pack2 1030 _ (by norm_num), dispatchHandler_eq_1030,
      read_store_data_query_encode uid n d t h.1.1.1 h.1.1.2 h.1.2 h.2]
  | storeDataResponse uid st =>
    simp only [wfb, Bool.and_eq_true, decide_eq_true_eq] at h
    simp only [encodeMsg, List.append_assoc]
    rw [readFrame_pack2 1031 _ (by norm_num), dispatchHandler_eq_1031,
      read_store_data_response_encode uid t st h.1 h.2]
  | retrieveDataQuery uid n =>
    simp only [wfb, Bool.and_eq_true, decide_eq_true_eq] at h
    simp only [encodeMsg, List.append_assoc]
    rw [readFrame_pack2 1032 _ (by norm_num), dispatchHandler_eq_1032,
      read_retrieve_data_query_encode uid n t h.1.1 h.1.2 h.2]
  | retrieveDataResponse uid st n d =>
    simp only [wfb, Bool.and_eq_true, decide_eq_true_eq] at h
    simp only [encodeMsg, List.append_assoc]
    rw [readFrame_pack2 1033 _ (by norm_num), dispatchHandler_eq_1033,
      read_retrieve_data_response_encode uid n d t st h.1.1.1.1 h.1.1.1.2 h.1.1.2
        h.1.2 h.2]

/-- Reading a frame from the encoding of Close yields the Close result. -/
theorem readFrame_encodeClose (t : Bytes) : readFrame (encodeClose ++ t) = .close t := by
  simp only [encodeClose]
  rw [readFrame_pack2 4 _ (by norm_num), dispatchHandler_eq_4]
  rfl

/-- An identifier outside the `handlers` dictionary dispatches to the
default lambda. -/
theorem dispatchHandler_unknown (id : Nat) (t : Bytes) (h : hasHandler id = false) :
    dispatchHandler id t = .unknown id t := by
  simp only [hasHandler, Bool.or_eq_false_iff, decide_eq_false_iff_not] at h
  obtain ⟨⟨⟨⟨⟨⟨⟨⟨⟨⟨⟨⟨h1, h2⟩, h3⟩, h4⟩, h5⟩, h6⟩, h7⟩, h8⟩, h9⟩, h10⟩, h11⟩, h12⟩, h13⟩ := h
  simp [dispatchHandler, h1, h2, h3, h4, h5, h6, h7, h8, h9, h10, h11, h12, h13]

/-! Lemmas about the bounded response-search loop. -/

theorem gdrLoop_zero (rt : RespType) (uid : Bytes) (c : Conn) :
    gdrLoop rt uid 0 c = (.ok none, c) := rfl

theorem gdrLoop_eof (rt : RespType) (uid : Bytes) (fuel : Nat) (c : Conn)
    (hs : c.stream = []) :
    gdrLoop rt uid (fuel + 1) c = (.ok none, { c with is_exhausted := true }) := by
  rw [gdrLoop, hs]
  rfl

theorem gdrLoop_step_nonmatch (rt : RespType) (uid : Bytes) (fuel : Nat) (c : Conn)
    (m : Msg) (rest : Bytes) (hwf : wfb m = true)
    (hm : matchesRU rt uid (some m) = false)
    (hs : c.stream = encodeMsg m ++ rest) :
    gdrLoop rt uid (fuel + 1) c =
      gdrLoop rt uid fuel { c with stream := rest, queue := c.queue ++ [some m] } := by
  rw [gdrLoop, hs, readFrame_encodeMsg m rest hwf]
  simp [hm]

theorem gdrLoop_step_match (rt : RespType) (uid : Bytes) (fuel : Nat) (c : Conn)
    (m : Msg) (rest : Bytes) (hwf : wfb m = true)
    (hm : matchesRU rt uid (some m) = true)
    (hs : c.stream = encodeMsg m ++ rest) :
    gdrLoop rt uid (fuel + 1) c = (.ok (some m), { c with stream := rest }) := by
  rw [gdrLoop, hs, readFrame_encodeMsg m rest hwf]
  simp [hm]

theorem gdrLoop_step_close (rt : RespType) (uid : Bytes) (fuel : Nat) (c : Conn)
    (rest : Bytes) (hs : c.stream = encodeClose ++ rest) :
    gdrLoop rt uid (fuel + 1) c =
      gdrLoop rt uid fuel
        { c with stream := rest, is_exhausted := true, queue := c.queue ++ [none] } := by
  rw [gdrLoop, hs, readFrame_encodeClose]

/-- Running the search loop over a block of decodable, non-matching frames
consumes them, appends them to the queue in arrival order, and burns one
unit of the message bound each. -/
theorem gdrLoop_fillers (rt : RespType) (uid : Bytes) (ms : List Msg) :
    ∀ (fuel : Nat) (c : Conn) (tail : Bytes),
    (∀ m ∈ ms, wfb m = true) →
    (∀ m ∈ ms, matchesRU rt uid (some m) = false) →
    c.stream = encodeAll ms ++ tail →
    ms.length ≤ fuel →
    gdrLoop rt uid fuel c =
      gdrLoop rt uid (fuel - ms.length)
        { c with stream := tail, queue := c.queue ++ ms.map some } := by
  induction ms with
  | nil =>
    intro fuel c tail _ _ hs _
    obtain ⟨q, s, e, o⟩ := c
    simp only [encodeAll_nil, List.nil_append] at hs
    subst hs
    simp
  | cons m ms ih =>
    intro fuel c tail hwf hnm hs hlen
    match fuel with
    | 0 => simp at hlen
    | f + 1 =>
      rw [encodeAll_cons, List.append_assoc] at hs
      rw [gdrLoop_step_nonmatch rt uid f c m (encodeAll ms ++ tail)
        (hwf m (by simp)) (hnm m (by simp)) hs]
      rw [ih f _ tail (fun x hx => hwf x (by simp [hx]))
        (fun x hx => hnm x (by simp [hx])) rfl (by simp at hlen; omega)]
      have harith : f + 1 - (m :: ms).length = f - ms.length := by simp
      simp [List.append_assoc, harith]

/-! Lemmas about the queue scan (`popFirst`). -/

theorem popFirst_none (p : Option Msg → Bool) (q : List (Option Msg))
    (h : ∀ x ∈ q, p x = false) : popFirst p q = none := by
  induction q with
  | nil => rfl
  | cons y ys ih =>
    rw [popFirst, if_neg (by simp [h y (by simp)]), ih (fun x hx => h x (by simp [hx]))]

theorem popFirst_first_match (p : Option Msg → Bool) (q1 : List (Option Msg))
    (item : Option Msg) (q2 : List (Option Msg))
    (h1 : ∀ x ∈ q1, p x = false) (h2 : p item = true) :
    popFirst p (q1 ++ item :: q2) = some (item, q1 ++ q2) := by
  induction q1 with
  | nil => simp [popFirst, h2]
  | cons y ys ih =>
    rw [List.cons_append, popFirst, if_neg (by simp [h1 y (by simp)]),
      ih (fun x hx => h1 x (by simp [hx]))]
    simp

/-- Removing the head of `q.filter p` via `popFirst` leaves the remaining
`p`-elements and all elements of the complementary filter intact. -/
theorem popFirst_of_filter (p r : Option Msg → Bool) (hpr : ∀ i, r i = !(p i)) :
    ∀ (q : List (Option Msg)) (x : Option Msg) (rest : List (Option Msg)),
    q.filter p = x :: rest →
    ∃ q', popFirst p q = some (x, q') ∧ q'.filter p = rest ∧ q'.filter r = q.filter r := by
  intro q
  induction q with
  | nil => intro x rest h; simp at h
  | cons y ys ih =>
    intro x rest h
    by_cases hy : p y = true
    · rw [List.filter_cons_of_pos hy] at h
      obtain ⟨he, hr⟩ := List.cons.inj h
      refine ⟨ys, ?_, ?_, ?_⟩
      · rw [popFirst, if_pos hy, he]
      · rw [← hr]
      · rw [List.filter_cons_of_neg (by simp [hpr, hy])]
    · rw [List.filter_cons_of_neg (by simpa using hy)] at h
      obtain ⟨q', hpop, hfil, hcompl⟩ := ih x rest h
      refine ⟨y :: q', ?_, ?_, ?_⟩
      · rw [popFirst, if_neg (by simpa using hy), hpop]
      · rw [List.filter_cons_of_neg (by simpa using hy), hfil]
      · by_cases hyr : r y = true
        · rw [List.filter_cons_of_pos hyr, List.filter_cons_of_pos hyr, hcompl]
        · rw [List.filter_cons_of_neg (by simpa using hyr),
            List.filter_cons_of_neg (by simpa using hyr), hcompl]

/-! Lemmas about `next`, `drainC` and `iterate`. -/

theorem next_queue_hit (c : Conn) (item : Option Msg) (q' : List (Option Msg))
    (h : popFirst (fun i => !isResp i) c.queue = some (item, q')) :
    next c = (.ok item, { c with queue := q' }) := by
  rw [next, h]

theorem filter_all_resp (q : List (Option Msg))
    (h : q.filter (fun i => !isResp i) = []) : q.filter isResp = q := by
  induction q with
  | nil => rfl
  | cons y ys ih =>
    cases hy : isResp y with
    | true =>
      rw [List.filter_cons_of_neg (by simp [hy])] at h
      rw [List.filter_cons_of_pos hy, ih h]
    | false =>
      rw [List.filter_cons_of_pos (by simp [hy])] at h
      exact absurd h (by simp)

/-- On an exhausted (empty) stream, repeatedly calling `next` delivers
exactly the non-response queue entries, in queue order, and leaves exactly
the response entries queued. -/
theorem drainC_exhausted :
    ∀ (l : List (Option Msg)) (c : Conn), c.stream = [] →
    c.queue.filter (fun i => !isResp i) = l →
    drainC c l.length = (l.map .ok, { c with queue := c.queue.filter isResp }) := by
  intro l
  induction l with
  | nil =>
    intro c _ hq
    simp only [List.length_nil, drainC]
    rw [filter_all_resp c.queue hq]
    rfl
  | cons x xs ih =>
    intro c hs hq
    obtain ⟨q', hpop, hfil, hcompl⟩ :=
      popFirst_of_filter (fun i => !isResp i) isResp (fun i => by simp) c.queue x xs hq
    rw [List.length_cons, drainC]
    simp only [next_queue_hit c x q' hpop]
    rw [ih { c with queue := q' } hs hfil]
    simp [hcompl]

theorem nextLoop_unknown (fuel : Nat) (c : Conn) (id : Nat) (rest : Bytes)
    (hid : id < 65536) (hh : hasHandler id = false)
    (hs : c.stream = packLE 2 id ++ rest) :
    nextLoop (fuel + 1) c = (.error .stopIteration, { c with stream := rest }) := by
  rw [nextLoop, hs, readFrame_pack2 id rest hid, dispatchHandler_unknown id rest hh]

theorem next_unknown (c : Conn) (id : Nat) (rest : Bytes)
    (hid : id < 65536) (hh : hasHandler id = false)
    (hs : c.stream = packLE 2 id ++ rest)
    (hq : popFirst (fun i => !isResp i) c.queue = none) :
    next c = (.error .stopIteration, { c with stream := rest }) := by
  rw [next, hq]
  have hl : c.stream.length + 1 = (rest.length + 2) + 1 := by
    rw [hs, List.length_append, packLE_length]
    omega
  rw [hl, nextLoop_unknown (rest.length + 2) c id rest hid hh hs]

theorem gdrLoop_unknown (rt : RespType) (uid : Bytes) (fuel : Nat) (c : Conn)
    (id : Nat) (rest : Bytes) (hid : id < 65536) (hh : hasHandler id = false)
    (hs : c.stream = packLE 2 id ++ rest) :
    gdrLoop rt uid (fuel + 1) c = (.error .stopIteration, { c with stream := rest }) := by
  rw [gdrLoop, hs, readFrame_pack2 id rest hid, dispatchHandler_unknown id rest hh]

theorem get_data_response_queue_hit (rt : RespType) (uid : Bytes) (c : Conn)
    (item : Option Msg) (q' : List (Option Msg))
    (h : popFirst (matchesRU rt uid) c.queue = some (item, q')) :
    get_data_response rt uid c = (.ok item, { c with queue := q' }) := by
  rw [get_data_response, h]

theorem get_data_response_no_queue_hit (rt : RespType) (uid : Bytes) (c : Conn)
    (h : popFirst (matchesRU rt uid) c.queue = none) :
    get_data_response rt uid c = gdrLoop rt uid 10 c := by
  rw [get_data_response, h]

theorem iterate_stop (c : Conn) (he : c.is_exhausted = true) (hq : c.queue = [])
    (n : Nat) : iterate c n = [] := by
  cases n with
  | zero => rfl
  | succ n => rw [iterate, if_neg (by simp [iterActive, he, hq])]

/-- The response-search loop never writes to the socket. -/
theorem gdrLoop_out (rt : RespType) (uid : Bytes) :
    ∀ (fuel : Nat) (c : Conn), (gdrLoop rt uid fuel c).2.out = c.out := by
  intro fuel
  induction fuel with
  | zero => intro c; rfl
  | succ f ih =>
    intro c
    rw [gdrLoop]
    cases readFrame c.stream with
    | eof => rfl
    | malformed => rfl
    | unknown id rest => rfl
    | external id rest => rfl
    | close rest => exact ih _
    | ok m rest =>
      by_cases hm : matchesRU rt uid (some m) = true
      · simp [hm]
      · simp only [Bool.not_eq_true] at hm
        simp [hm]
        exact ih _

/-- `get_data_response` never writes to the socket. -/
theorem get_data_response_out (rt : RespType) (uid : Bytes) (c : Conn) :
    (get_data_response rt uid c).2.out = c.out := by
  rw [get_data_response]
  cases popFirst (matchesRU rt uid) c.queue with
  | none => exact gdrLoop_out rt uid 10 c
  | some p => rfl

/-- `store_data` writes exactly the encoded store query carrying the uid it
was given for this call. -/
theorem store_data_out (u n d : Bytes) (c : Conn) :
    (store_data u n d c).2.out = c.out ++ encodeMsg (.storeDataQuery u n d) := by
  unfold store_data
  have hout := get_data_response_out .store (mkMrdStoreDataQuery n d (some u)).uid
    (send_store_data_query (mkMrdStoreDataQuery n d (some u)) c)
  rcases hg : get_data_response .store (mkMrdStoreDataQuery n d (some u)).uid
    (send_store_data_query (mkMrdStoreDataQuery n d (some u)) c) with ⟨r, c2⟩
  rw [hg] at hout
  rcases r with e | m
  · simp only [hg]
    exact hout
  · rcases m with _ | m
    · simp only [hg]
      exact hout
    · cases hst : statusAttr m with
      | none => simp only [hg, hst]; exact hout
      | some st => simp only [hg, hst]; exact hout

theorem iterate_succ (c : Conn) (n : Nat) :
    iterate c (n + 1) =
      if iterActive c then
        match next c with
        | (.error e, _) => [.error e]
        | (.ok r, c') => .ok r :: iterate c' n
      else [] := rfl

/-- C2 counterexample: on the stream ConfigText, Text, Close, iterating the
receiver does NOT end after the two messages — the Close frame makes
`next()` return `None`, which `__iter__` yields as a third item before the
loop condition stops the iteration. -/
theorem C2_counterexample :
    iterate c2Init 10 ≠
      [.ok (some (.configText cfgFast)), .ok (some (.text helloBytes))] ∧
    iterate c2Init 10 =
      [.ok (some (.configText cfgFast)), .ok (some (.text helloBytes)), .ok none] := by
  constructor
  · decide
  · decide

/-- C2 (amended): iterating the receiver over ConfigText("recon_mode=fast"),
Text("hello"), Close yields the two messages, then one `None` produced by
the Close frame, then end of iteration (for any remaining fuel); the
connection is not Exhausted before the Close frame is decoded and is
Exhausted exactly from the Close frame on. -/
theorem C2_iteration_close_yields_none :
    (∀ n : Nat, iterate c2Init (n + 3) =
      [.ok (some (.configText cfgFast)), .ok (some (.text helloBytes)), .ok none]) ∧
    next c2Init = (.ok (some (.configText cfgFast)), c2AfterCfg) ∧
    next c2AfterCfg = (.ok (some (.text helloBytes)), c2AfterText) ∧
    next c2AfterText = (.ok none, c2Final) ∧
    c2Init.is_exhausted = false ∧ c2AfterCfg.is_exhausted = false ∧
    c2AfterText.is_exhausted = false ∧ c2Final.is_exhausted = true := by
  have h0 : next c2Init = (.ok (some (.configText cfgFast)), c2AfterCfg) := by decide
  have h1 : next c2AfterCfg = (.ok (some (.text helloBytes)), c2AfterText) := by decide
  have h2 : next c2AfterText = (.ok none, c2Final) := by decide
  refine ⟨?_, h0, h1, h2, rfl, rfl, rfl, rfl⟩
  intro n
  have ha : iterActive c2Init = true := by decide
  have hb : iterActive c2AfterCfg = true := by decide
  have hc : iterActive c2AfterText = true := by decide
  show iterate c2Init (n + 2 + 1) = _
  rw [iterate_succ, if_pos ha, h0]
  show _ :: iterate c2AfterCfg (n + 1 + 1) = _
  rw [iterate_succ, if_pos hb, h1]
  show _ :: _ :: iterate c2AfterText (n + 0 + 1) = _
  rw [iterate_succ, if_pos hc, h2]
  show _ :: _ :: _ :: iterate c2Final n = _
  rw [iterate_stop c2Final rfl rfl n]

/-- C3 counterexample: a connection that is already Exhausted with an empty
queue, whose stream still holds a Text frame; calling `next()` reads the
stream again — it consumes the frame and even returns the message — because
neither `next` nor `get_data_response` consults `is_exhausted` before
reading. -/
theorem C3_counterexample :
    c3Init.is_exhausted = true ∧ c3Init.queue = [] ∧ c3Init.stream ≠ [] ∧
    next c3Init = (.ok (some (.text helloBytes)), ⟨[], [], true, []⟩) := by
  refine ⟨rfl, rfl, by decide, by decide⟩

/-- C3 (amended): messages already buffered remain deliverable without any
stream access (a queue hit returns immediately and leaves the stream
untouched, whatever `is_exhausted` is), and the `__iter__` loop stops once
the connection is Exhausted with an empty queue; but a direct
`next()`/`get_response()` call on an Exhausted connection with no
deliverable queue entry still performs a stream read, as the concrete
Exhausted connection shows. -/
theorem C3_exhausted_not_checked_by_next :
    (∀ (c : Conn) (item : Option Msg) (q' : List (Option Msg)),
      popFirst (fun i => !isResp i) c.queue = some (item, q') →
      next c = (.ok item, { c with queue := q' })) ∧
    (∀ (c : Conn) (n : Nat), c.is_exhausted = true → c.queue = [] →
      iterate c n = []) ∧
    next c3Init = (.ok (some (.text helloBytes)), ⟨[], [], true, []⟩) := by
  refine ⟨?_, ?_, by decide⟩
  · intro c item q' h
    exact next_queue_hit c item q' h
  · intro c n he hq
    exact iterate_stop c he hq n

theorem C3_witness :
    next ⟨[some (.text [104])], [], true, []⟩ =
      (.ok (some (.text [104])), ⟨[], [], true, []⟩) ∧
    iterate ⟨[], [], true, []⟩ 5 = [] := by
  constructor
  · exact C3_exhausted_not_checked_by_next.1 ⟨[some (.text [104])], [], true, []⟩
      (some (.text [104])) [] (by decide)
  · exact C3_exhausted_not_checked_by_next.2.1 ⟨[], [], true, []⟩ 5 rfl rfl

/-- C4: on a correlation miss (no matching response within the bound —
here the peer sends nothing, so the very first identifier read hits EOF),
`retrieve_data` surfaces the miss as `None`, but `store_data` dereferences
the `None` with `res.status` and raises `AttributeError`: the miss crashes
the store operation instead of being reported as "no response". -/
theorem C4_store_data_miss_raises :
    (store_data uidC [107] [1, 2] ⟨[], [], false, []⟩).1 = .error .attributeError ∧
    (retrieve_data uidC [107] ⟨[], [], false, []⟩).1 = .ok none := by
  constructor
  · decide
  · decide

set_option maxRecDepth 8192 in
/-- C5 counterexample: the 1-byte string consisting of one NUL character is
at most 1023 bytes, yet its ConfigFile round-trip returns the empty string,
not the original; and `send_config_file` of a 1025-byte name transmits a
frame (with the name silently truncated by `struct.pack('<1024s')`) instead
of rejecting it before transmission. -/
theorem C5_counterexample :
    readFrame (encodeMsg (.configFile [0])) = .ok (.configFile []) [] ∧
    ([] : Bytes) ≠ [0] ∧
    (send_config_file (List.replicate 1025 97) ⟨[], [], false, []⟩).out =
      packLE 2 1 ++ pack1024s (List.replicate 1025 97) ∧
    (pack1024s (List.replicate 1025 97)).length = 1024 := by
  refine ⟨by decide, by decide, by simp [send_config_file], pack1024s_length _⟩

/-- C5 (amended): for every NUL-free string of at most 1024 UTF-8 bytes the
ConfigFile round-trip returns the original string; `send_config_file` never
rejects — it always transmits the identifier plus the `struct.pack` result,
which truncates or null-pads the name to exactly 1024 bytes. -/
theorem C5_config_file_roundtrip_and_truncation :
    (∀ (b t : Bytes), b.all (fun x => x != 0) = true → b.length ≤ 1024 →
      readFrame (encodeMsg (.configFile b) ++ t) = .ok (.configFile b) t) ∧
    (∀ (b : Bytes) (c : Conn),
      (send_config_file b c).out = c.out ++ (packLE 2 1 ++ pack1024s b)) ∧
    (∀ b : Bytes, (pack1024s b).length = 1024) := by
  refine ⟨?_, ?_, pack1024s_length⟩
  · intro b t h1 h2
    exact readFrame_encodeMsg (.configFile b) t (by simp [wfb, h1, h2])
  · intro b c
    simp [send_config_file, List.append_assoc]

theorem C5_witness :
    readFrame (encodeMsg (.configFile [97]) ++ []) = .ok (.configFile [97]) [] :=
  C5_config_file_roundtrip_and_truncation.1 [97] [] (by decide) (by decide)

/-- C6 counterexample: the Text message "a\x00b" (valid UTF-8, 3 bytes) does
not round-trip — the decoder strips at the first NUL and returns Text "a". -/
theorem C6_counterexample :
    readFrame (encodeMsg (.text [97, 0, 98])) = .ok (.text [97]) [] ∧
    Msg.text [97] ≠ Msg.text [97, 0, 98] := by
  constructor
  · decide
  · decide

/-- C6 (amended): for every supported message variant whose text fields are
NUL-free (this includes every empty string and all multi-byte UTF-8 text,
since UTF-8 uses the zero byte only for U+0000), whose uid is 16 bytes and
whose lengths/status fit the `struct.pack` formats, decoding the bytes
produced by the sender returns the original message and consumes exactly
its frame. -/
theorem C6_decode_encode_roundtrip :
    ∀ (m : Msg) (t : Bytes), wfb m = true → readFrame (encodeMsg m ++ t) = .ok m t := by
  intro m t h
  exact readFrame_encodeMsg m t h

theorem C6_witness :
    readFrame (encodeMsg (.retrieveDataResponse uidA 3 [110] [5, 6]) ++ []) =
      .ok (.retrieveDataResponse uidA 3 [110] [5, 6]) [] :=
  C6_decode_encode_roundtrip (.retrieveDataResponse uidA 3 [110] [5, 6]) [] (by decide)

/-- C9 counterexample: two distinct store-data query objects built with the
uid argument left to its default (as in `MrdStoreDataQuery(name, data)`)
carry the SAME uid, because Python evaluates the `uid=uuid.uuid4()` default
once, at class-definition time. -/
theorem C9_counterexample :
    mkMrdStoreDataQuery [97] [] none ≠ mkMrdStoreDataQuery [98] [] none ∧
    (mkMrdStoreDataQuery [97] [] none).uid = (mkMrdStoreDataQuery [98] [] none).uid := by
  constructor
  · decide
  · decide

/-- C9 (amended): `store_data`/`retrieve_data` pass an explicit fresh
`uuid.uuid4()` on every call, so the query each call constructs and sends
carries exactly that per-call uid (distinct draws give distinct exchange
ids); but query objects constructed with the uid argument omitted all share
the single default uid evaluated at class-definition time. -/
theorem C9_uid_fresh_per_call_default_shared :
    (∀ (n d u : Bytes), (mkMrdStoreDataQuery n d (some u)).uid = u) ∧
    (∀ (n u : Bytes), (mkMrdRetrieveDataQuery n (some u)).uid = u) ∧
    (∀ (u n d : Bytes) (c : Conn),
      (store_data u n d c).2.out = c.out ++ encodeMsg (.storeDataQuery u n d)) ∧
    (∀ (n d n' d' : Bytes),
      (mkMrdStoreDataQuery n d none).uid = (mkMrdStoreDataQuery n' d' none).uid) ∧
    (∀ (n n' : Bytes),
      (mkMrdRetrieveDataQuery n none).uid = (mkMrdRetrieveDataQuery n' none).uid) := by
  refine ⟨fun n d u => rfl, fun n u => rfl, ?_, fun n d n' d' => rfl, fun n n' => rfl⟩
  intro u n d c
  exact store_data_out u n d c

/-- C8: when the 2-byte identifier names no registered handler, the default
dispatch lambda raises `StopIteration` (via `unknown_message_identifier`):
both `next()` and `get_data_response()` report the failure to the caller and
stop consuming the stream right after the identifier — no resynchronisation,
no silent skipping. -/
theorem C8_unknown_identifier_is_fatal :
    ∀ (id : Nat) (rest : Bytes) (c : Conn) (rt : RespType) (uid : Bytes),
    id < 65536 → hasHandler id = false → c.stream = packLE 2 id ++ rest →
    (popFirst (fun i => !isResp i) c.queue = none →
      next c = (.error .stopIteration, { c with stream := rest })) ∧
    (popFirst (matchesRU rt uid) c.queue = none →
      get_data_response rt uid c = (.error .stopIteration, { c with stream := rest })) := by
  intro id rest c rt uid hid hh hs
  constructor
  · intro hq
    exact next_unknown c id rest hid hh hs hq
  · intro hq
    rw [get_data_response_no_queue_hit rt uid c hq]
    exact gdrLoop_unknown rt uid 9 c id rest hid hh hs

theorem C8_witness :
    next ⟨[], packLE 2 999 ++ [1, 2, 3], false, []⟩ =
      (.error .stopIteration, ⟨[], [1, 2, 3], false, []⟩) ∧
    get_data_response .store uidA ⟨[], packLE 2 999 ++ [1, 2, 3], false, []⟩ =
      (.error .stopIteration, ⟨[], [1, 2, 3], false, []⟩) := by
  constructor
  · exact (C8_unknown_identifier_is_fatal 999 [1, 2, 3]
      ⟨[], packLE 2 999 ++ [1, 2, 3], false, []⟩ .store uidA
      (by decide) (by decide) rfl).1 rfl
  · exact (C8_unknown_identifier_is_fatal 999 [1, 2, 3]
      ⟨[], packLE 2 999 ++ [1, 2, 3], false, []⟩ .store uidA
      (by decide) (by decide) rfl).2 rfl

/-- C1: `get_data_response(T, uid)` first pops the earliest queued entry of
type `T` with the target uid, touching neither stream nor the rest of the
queue; otherwise it reads at most 10 further frames: a match within the
first 10 frames is returned directly (not queued) with the mismatching
frames appended to the queue in order; after 10 mismatching frames it
returns "not found" leaving the rest of the stream (including a response
first appearing on frame 11 or later) unconsumed; and it returns "not
found" when the stream is exhausted before a match. -/
theorem C1_get_response_queue_then_bounded_search :
    (∀ (rt : RespType) (uid : Bytes) (c : Conn) (q1 : List (Option Msg))
        (item : Option Msg) (q2 : List (Option Msg)),
      c.queue = q1 ++ item :: q2 →
      (∀ x ∈ q1, matchesRU rt uid x = false) →
      matchesRU rt uid item = true →
      get_data_response rt uid c = (.ok item, { c with queue := q1 ++ q2 })) ∧
    (∀ (rt : RespType) (uid : Bytes) (c : Conn) (fillers : List Msg) (r : Msg)
        (tail : Bytes),
      (∀ m ∈ fillers, wfb m = true) →
      (∀ m ∈ fillers, matchesRU rt uid (some m) = false) →
      wfb r = true → matchesRU rt uid (some r) = true →
      (∀ x ∈ c.queue, matchesRU rt uid x = false) →
      c.stream = encodeAll fillers ++ (encodeMsg r ++ tail) →
      fillers.length < 10 →
      get_data_response rt uid c =
        (.ok (some r), { c with stream := tail, queue := c.queue ++ fillers.map some })) ∧
    (∀ (rt : RespType) (uid : Bytes) (c : Conn) (fillers : List Msg) (rest : Bytes),
      (∀ m ∈ fillers, wfb m = true) →
      (∀ m ∈ fillers, matchesRU rt uid (some m) = false) →
      (∀ x ∈ c.queue, matchesRU rt uid x = false) →
      c.stream = encodeAll fillers ++ rest →
      fillers.length = 10 →
      get_data_response rt uid c =
        (.ok none, { c with stream := rest, queue := c.queue ++ fillers.map some })) ∧
    (∀ (rt : RespType) (uid : Bytes) (c : Conn) (fillers : List Msg),
      (∀ m ∈ fillers, wfb m = true) →
      (∀ m ∈ fillers, matchesRU rt uid (some m) = false) →
      (∀ x ∈ c.queue, matchesRU rt uid x = false) →
      c.stream = encodeAll fillers →
      fillers.length < 10 →
      get_data_response rt uid c =
        (.ok none, { c with stream := [], is_exhausted := true, queue := c.queue ++ fillers.map some })) := by
  refine ⟨?_, ?_, ?_, ?_⟩
  · intro rt uid c q1 item q2 hq h1 h2
    have hpop : popFirst (matchesRU rt uid) c.queue = some (item, q1 ++ q2) := by
      rw [hq]
      exact popFirst_first_match _ q1 item q2 h1 h2
    exact get_data_response_queue_hit rt uid c item (q1 ++ q2) hpop
  · intro rt uid c fillers r tail hwf hnm hwr hmr hqn hs hlen
    rw [get_data_response_no_queue_hit rt uid c (popFirst_none _ _ hqn)]
    rw [gdrLoop_fillers rt uid fillers 10 c (encodeMsg r ++ tail) hwf hnm hs (by omega)]
    have h10 : 10 - fillers.length = (9 - fillers.length) + 1 := by omega
    rw [h10, gdrLoop_step_match rt uid (9 - fillers.length) _ r tail hwr hmr rfl]
  · intro rt uid c fillers rest hwf hnm hqn hs hlen
    rw [get_data_response_no_queue_hit rt uid c (popFirst_none _ _ hqn)]
    rw [gdrLoop_fillers rt uid fillers 10 c rest hwf hnm hs (by omega)]
    have h10 : 10 - fillers.length = 0 := by omega
    rw [h10, gdrLoop_zero]
  · intro rt uid c fillers hwf hnm hqn hs hlen
    rw [get_data_response_no_queue_hit rt uid c (popFirst_none _ _ hqn)]
    have hs' : c.stream = encodeAll fillers ++ [] := by
      rw [hs, List.append_nil]
    rw [gdrLoop_fillers rt uid fillers 10 c [] hwf hnm hs' (by omega)]
    have h10 : 10 - fillers.length = (9 - fillers.length) + 1 := by omega
    rw [h10, gdrLoop_eof rt uid _ _ rfl]

theorem C1_witness :
    get_data_response .store uidA
        ⟨[some (.text [120]), some (.storeDataResponse uidA 7)], [], false, []⟩ =
      (.ok (some (.storeDataResponse uidA 7)), ⟨[some (.text [120])], [], false, []⟩) ∧
    get_data_response .store uidA
        ⟨[], encodeAll [.text [120]] ++ (encodeMsg (.storeDataResponse uidA 7) ++ []),
         false, []⟩ =
      (.ok (some (.storeDataResponse uidA 7)), ⟨[some (.text [120])], [], false, []⟩) ∧
    get_data_response .store uidA
        ⟨[], encodeAll (List.replicate 10 (Msg.text [120])) ++
          encodeMsg (.storeDataResponse uidA 7), false, []⟩ =
      (.ok none, ⟨(List.replicate 10 (Msg.text [120])).map some,
        encodeMsg (.storeDataResponse uidA 7), false, []⟩) ∧
    get_data_response .store uidA ⟨[], encodeAll [.text [120]], false, []⟩ =
      (.ok none, ⟨[some (.text [120])], [], true, []⟩) := by
  refine ⟨?_, ?_, ?_, ?_⟩
  · exact C1_get_response_queue_then_bounded_search.1 .store uidA
      ⟨[some (.text [120]), some (.storeDataResponse uidA 7)], [], false, []⟩
      [some (.text [120])] (some (.storeDataResponse uidA 7)) []
      rfl (by decide) (by decide)
  · exact C1_get_response_queue_then_bounded_search.2.1 .store uidA
      ⟨[], encodeAll [.text [120]] ++ (encodeMsg (.storeDataResponse uidA 7) ++ []),
       false, []⟩
      [.text [120]] (.storeDataResponse uidA 7) []
      (by decide) (by decide) (by decide) (by decide) (by decide) rfl (by decide)
  · exact C1_get_response_queue_then_bounded_search.2.2.1 .store uidA
      ⟨[], encodeAll (List.replicate 10 (Msg.text [120])) ++
        encodeMsg (.storeDataResponse uidA 7), false, []⟩
      (List.replicate 10 (Msg.text [120])) (encodeMsg (.storeDataResponse uidA 7))
      (by decide) (by decide) (by decide) rfl (by decide)
  · exact C1_get_response_queue_then_bounded_search.2.2.2 .store uidA
      ⟨[], encodeAll [.text [120]], false, []⟩ [.text [120]]
      (by decide) (by decide) (by decide) rfl (by decide)

/-- C7 counterexample: during a `get_data_response(StoreDataResponse, uidA)`
search the engine buffers, in order, a StoreDataResponse for a foreign uid
and a Text message; but a later `next()` returns the Text message (buffered
SECOND) and never returns the foreign response — `next()` permanently skips
data responses, so the first buffered message is not "later returned by
next() in the original order". -/
theorem C7_counterexample :
    (get_data_response .store uidA c7Init).1 = .ok (some (.storeDataResponse uidA 0)) ∧
    (get_data_response .store uidA c7Init).2.queue =
      [some (.storeDataResponse uidB 0), some (.text [120])] ∧
    (next (get_data_response .store uidA c7Init).2).1 = .ok (some (.text [120])) ∧
    (next (next (get_data_response .store uidA c7Init).2).2).1 = .ok none ∧
    (next (next (get_data_response .store uidA c7Init).2).2).2.queue =
      [some (.storeDataResponse uidB 0)] := by
  refine ⟨by decide, by decide, by decide, by decide, by decide⟩

/-- C7 (amended): every message decoded during a `get_data_response` search
that does not match is appended to the queue in arrival order; subsequent
`next()` calls return exactly the NON-response buffered messages, in that
order, none lost or duplicated, while buffered response-type messages are
skipped by `next()` and stay in the queue (retrievable only by a matching
`get_data_response`). -/
theorem C7_buffered_messages_order :
    ∀ (rt : RespType) (uid : Bytes) (fillers : List Msg) (out : Bytes),
    (∀ m ∈ fillers, wfb m = true) →
    (∀ m ∈ fillers, matchesRU rt uid (some m) = false) →
    fillers.length < 10 →
    get_data_response rt uid ⟨[], encodeAll fillers, false, out⟩ =
      (.ok none, ⟨fillers.map some, [], true, out⟩) ∧
    drainC ⟨fillers.map some, [], true, out⟩
        ((fillers.filter (fun m => !isResp (some m))).length) =
      ((fillers.filter (fun m => !isResp (some m))).map (fun m => .ok (some m)),
       ⟨(fillers.map some).filter isResp, [], true, out⟩) := by
  intro rt uid fillers out hwf hnm hlen
  constructor
  · have hpop : popFirst (matchesRU rt uid) ([] : List (Option Msg)) = none := rfl
    rw [get_data_response_no_queue_hit rt uid _ hpop]
    have hs' : (⟨[], encodeAll fillers, false, out⟩ : Conn).stream =
        encodeAll fillers ++ [] := by
      simp
    rw [gdrLoop_fillers rt uid fillers 10 _ [] hwf hnm hs' (by omega)]
    have h10 : 10 - fillers.length = (9 - fillers.length) + 1 := by omega
    rw [h10, gdrLoop_eof rt uid _ _ rfl]
    rfl
  · have hfm : (fillers.map some).filter (fun i => !isResp i)
        = (fillers.filter (fun m => !isResp (some m))).map some := by
      rw [List.filter_map]
      rfl
    have hd := drainC_exhausted ((fillers.map some).filter (fun i => !isResp i))
      ⟨fillers.map some, [], true, out⟩ rfl rfl
    rw [hfm, List.length_map, List.map_map] at hd
    exact hd

theorem C7_witness :
    get_data_response .store uidA
        ⟨[], encodeAll [.storeDataResponse uidB 0, .text [120]], false, []⟩ =
      (.ok none, ⟨[some (.storeDataResponse uidB 0), some (.text [120])], [], true, []⟩) ∧
    drainC ⟨[some (.storeDataResponse uidB 0), some (.text [120])], [], true, []⟩ 1 =
      ([.ok (some (.text [120]))], ⟨[some (.storeDataResponse uidB 0)], [], true, []⟩) :=
  C7_buffered_messages_order .store uidA [.storeDataResponse uidB 0, .text [120]] []
    (by decide) (by decide) (by decide)
